import Mathlib

/-!
Verification development for the iris voting web application (`app.py`).

The application is a Flask app backed by a sqlite database `voting.db` with
two tables:

  users (id INTEGER PRIMARY KEY AUTOINCREMENT, user_id TEXT UNIQUE,
         face_path TEXT, eye_path TEXT, has_voted INTEGER DEFAULT 0)
  votes (id INTEGER PRIMARY KEY AUTOINCREMENT, voter_id TEXT, candidate TEXT)

Note that `votes` carries no uniqueness constraint of any kind on `voter_id`.

We embed the database state as two lists of rows (in insertion order, which
is the order sqlite's AUTOINCREMENT ids induce), the database helper
functions (`add_user`, `get_user`, `mark_voted`, `has_already_voted`,
`save_vote`) as functions on that state, and the `/vote` request handler
both as a sequential function (`vote`) and as a small-step machine
(`step` / `run2`) whose atomic steps are the handler's individual database
operations, so that interleavings of concurrent requests can be examined.

The image pipeline (`capture_image`, `compare_images`) is embedded further
down: images after `cv2.resize(img, (200, 200))` are modelled as functions
`Fin 40000 → Fin 256` (200×200 grayscale pixels, row-major), `cv2.calcHist`
as exact bin counting, and `cv2.compareHist(·, ·, HISTCMP_CORREL)` as the
Pearson correlation coefficient of the two 256-bin histograms, computed over
exact arithmetic (the float roundoff of the original is not modelled).
`cv2.imread` and `cv2.resize` themselves are external library calls and are
abstracted as a `load : String → Option Gray` parameter (`none` models a
failed decode); calling `cv2.imread` with a `None` path raises a `TypeError`
in the Python bindings, modelled as `Except.error PyErr.typeError`.
-/

/-- A row of the `users` table.  The AUTOINCREMENT `id` column is never read
by the application and is omitted; `SELECT *` row indices 1, 2, 3, 4 map to
`user_id`, `face_path`, `eye_path`, `has_voted`.  `face_path` and `eye_path`
are `TEXT` columns that receive the result of `capture_image`, which may be
Python `None` (SQL NULL), hence `Option String`. -/
structure UserRow where
  user_id : String
  face_path : Option String
  eye_path : Option String
  has_voted : Nat
deriving DecidableEq, Repr

/-- A row of the `votes` table (AUTOINCREMENT id omitted, never read). -/
structure VoteRow where
  voter_id : String
  candidate : String
deriving DecidableEq, Repr

/-- The state of `voting.db`: the two tables, rows in insertion order. -/
structure DB where
  users : List UserRow
  votes : List VoteRow
deriving DecidableEq, Repr

/-- `create_db`: both tables start empty. -/
def create_db : DB := ⟨[], []⟩

/-- `add_user`: `INSERT INTO users (user_id, face_path, eye_path) VALUES (?, ?, ?)`.
The `UNIQUE` constraint on `user_id` makes the insert raise
`sqlite3.IntegrityError` exactly when a row with this `user_id` already
exists, in which case the function returns `False` and the table is
unchanged; otherwise the row is appended with `has_voted` defaulted to `0`
and the function returns `True`. -/
def add_user (uid : String) (face_path eye_path : Option String) (db : DB) :
    Bool × DB :=
  if db.users.any (fun r => r.user_id == uid) then
    (false, db)
  else
    (true, { db with users := db.users ++ [⟨uid, face_path, eye_path, 0⟩] })

/-- `get_user`: `SELECT * FROM users WHERE user_id=?` followed by
`fetchone()`, i.e. the first matching row if any. -/
def get_user (uid : String) (db : DB) : Option UserRow :=
  db.users.find? (fun r => r.user_id == uid)

/-- `mark_voted`: `UPDATE users SET has_voted=1 WHERE user_id=?`.  The update
is unconditional on the current value of `has_voted`, affects every matching
row (zero rows if the voter is unknown), and returns nothing. -/
def mark_voted (uid : String) (db : DB) : DB :=
  { db with
    users := db.users.map (fun r =>
      if r.user_id == uid then { r with has_voted := 1 } else r) }

/-- `has_already_voted`: `user[4] == 1 if user else False`. -/
def has_already_voted (uid : String) (db : DB) : Bool :=
  match get_user uid db with
  | some u => u.has_voted == 1
  | none => false

/-- `save_vote`: `INSERT INTO votes (voter_id, candidate) VALUES (?, ?)`.
The insert is unconditional: the `votes` table has no uniqueness constraint
and the function performs no duplicate check. -/
def save_vote (uid candidate : String) (db : DB) : DB :=
  { db with votes := db.votes ++ [⟨uid, candidate⟩] }

/-- The ballots recorded for a given voter. -/
def ballotsFor (uid : String) (db : DB) : List VoteRow :=
  db.votes.filter (fun r => r.voter_id == uid)

/-- The voting status of a voter as stored: `some n` is the `has_voted`
column of the voter's row, `none` means no record. -/
def statusOf (uid : String) (db : DB) : Option Nat :=
  (get_user uid db).map (fun u => u.has_voted)

/-- Outcome of one `/vote` POST request, one constructor per `return` of the
handler plus one for an uncaught Python exception:
`alreadyVoted` = "You have already voted!", `notFound` = "User not found!",
`committed` = "Vote registered successfully!", `rejected` = "Verification
failed! Vote not registered.". -/
inductive VoteResult where
  | alreadyVoted
  | notFound
  | committed
  | rejected
deriving DecidableEq, Repr

/-- Program counter of one in-flight `/vote` request, one position per
successive operation of the handler body (lines 170–188 of `app.py`):
the `has_already_voted` check, the two `capture_image` calls, the
`get_user` load, the `compare_images` verification, the `save_vote` insert
and the `mark_voted` update. -/
inductive PC where
  | checkVoted
  | capFace
  | capEye
  | loadUser
  | verifyStep
  | saveStep
  | markStep
  | done (r : VoteResult)
deriving DecidableEq, Repr

/-- One in-flight `/vote` request: its form fields, the (abstracted) outcome
its captured samples would get from `compare_images` against the stored
templates, its program counter, and the number of `capture_image` calls it
has performed so far (captures touch only the camera and the image files,
never the database). -/
structure Attempt where
  uid : String
  cand : String
  verok : Bool
  pc : PC
  caps : Nat
deriving DecidableEq, Repr

/-- A fresh `/vote` request for voter `uid` and candidate `cand` whose
samples would verify iff `verok`. -/
def mkAttempt (uid cand : String) (verok : Bool) : Attempt :=
  ⟨uid, cand, verok, PC.checkVoted, 0⟩

/-- One atomic step of the `/vote` handler.  Each database operation of the
handler is a single sqlite statement in its own implicit transaction, so it
is the unit of atomicity; nothing in the handler groups the `save_vote`
insert and the `mark_voted` update (or the initial `has_already_voted` read
and the final write) into one transaction. -/
def step (a : Attempt) (db : DB) : Attempt × DB :=
  match a.pc with
  | PC.checkVoted =>
      if has_already_voted a.uid db then
        ({ a with pc := PC.done VoteResult.alreadyVoted }, db)
      else
        ({ a with pc := PC.capFace }, db)
  | PC.capFace => ({ a with pc := PC.capEye, caps := a.caps + 1 }, db)
  | PC.capEye => ({ a with pc := PC.loadUser, caps := a.caps + 1 }, db)
  | PC.loadUser =>
      match get_user a.uid db with
      | none => ({ a with pc := PC.done VoteResult.notFound }, db)
      | some _ => ({ a with pc := PC.verifyStep }, db)
  | PC.verifyStep =>
      if a.verok then ({ a with pc := PC.saveStep }, db)
      else ({ a with pc := PC.done VoteResult.rejected }, db)
  | PC.saveStep => ({ a with pc := PC.markStep }, save_vote a.uid a.cand db)
  | PC.markStep =>
      ({ a with pc := PC.done VoteResult.committed }, mark_voted a.uid db)
  | PC.done _ => (a, db)

/-- Run one request alone for `n` steps. -/
def runSeq : Nat → Attempt → DB → Attempt × DB
  | 0, a, db => (a, db)
  | n + 1, a, db =>
      let s := step a db
      runSeq n s.1 s.2

/-- Run two concurrent requests under an explicit interleaving: `false`
schedules a step of the first request, `true` a step of the second.  The
database is the shared state; each request's local state is its `Attempt`. -/
def run2 : List Bool → Attempt × Attempt × DB → Attempt × Attempt × DB
  | [], s => s
  | b :: rest, (a1, a2, db) =>
      if b then
        let s := step a2 db
        run2 rest (a1, s.1, s.2)
      else
        let s := step a1 db
        run2 rest (s.1, a2, s.2)

/-- A database holding one enrolled, not-yet-voted voter `"v1"`. -/
def db1 : DB :=
  ⟨[⟨"v1", some "voters/faces/v1.jpg", some "voters/eyes/v1.jpg", 0⟩], []⟩

/-- A database whose single voter `"v1"` has already voted. -/
def dbVoted : DB :=
  ⟨[⟨"v1", some "voters/faces/v1.jpg", some "voters/eyes/v1.jpg", 1⟩],
   [⟨"v1", "A"⟩]⟩

/-- The interleaving in which two requests for the same voter both pass the
`has_already_voted` check before either reaches its commit: request 1 and
request 2 each take their first step, then request 1 runs to completion,
then request 2 runs to completion. -/
def raceSchedule : List Bool :=
  [false, true, false, false, false, false, false, false,
   true, true, true, true, true, true]

/-- A Python exception escaping the handler.  `typeError` models the
`TypeError` that the OpenCV bindings raise when `cv2.imread` is given
`None` instead of a filename string (as happens when a `capture_image`
result of `None` reaches `compare_images`). -/
inductive PyErr where
  | typeError
deriving DecidableEq, Repr

/-- A grayscale image as produced by `cv2.resize(img, (200, 200))`:
200×200 pixels, row-major, each an intensity in `0..255`.  (`cv2.calcHist`
only consumes the multiset of intensities, so the flattening loses
nothing the comparison ever looks at.) -/
abbrev Gray := Fin 40000 → Fin 256

/-- `cv2.calcHist([img], [0], None, [256], [0, 256])`: the 256-bin intensity
histogram, bin `v` counting the pixels of intensity `v`. -/
def hist (x : Gray) (v : Fin 256) : Nat :=
  (Finset.univ.filter (fun n => x n = v)).card

/-- Mean bin height of a histogram (the `H̄` of OpenCV's `HISTCMP_CORREL`
formula), over exact rationals. -/
def histMean (h : Fin 256 → Nat) : ℚ :=
  (∑ v, (h v : ℚ)) / 256

/-- Centered cross-sum `∑ (H₁(v) − H̄₁) (H₂(v) − H̄₂)` of two histograms,
the building block of `HISTCMP_CORREL`. -/
def covSum (h g : Fin 256 → Nat) : ℚ :=
  ∑ v, ((h v : ℚ) - histMean h) * ((g v : ℚ) - histMean g)

/-- `cv2.compareHist(hist1, hist2, cv2.HISTCMP_CORREL)`: the Pearson
correlation coefficient of the two histograms,
`∑ (H₁−H̄₁)(H₂−H̄₂) / √(∑ (H₁−H̄₁)² ∑ (H₂−H̄₂)²)`.  (Lean's division by zero
yields `0`; the denominator is proved nonzero below for every histogram an
actual 200×200 image can produce.) -/
noncomputable def correl (h g : Fin 256 → Nat) : ℝ :=
  ((covSum h g : ℚ) : ℝ) /
    Real.sqrt (((covSum h h : ℚ) : ℝ) * ((covSum g g : ℚ) : ℝ))

/-- `compare_images(img1_path, img2_path)`.  The two paths are whatever the
caller passes — in `vote` they are `capture_image` results, which can be
Python `None`; `cv2.imread(None, 0)` raises a `TypeError` in the bindings
before any comparison happens.  For string paths, `load` abstracts
`cv2.imread` plus `cv2.resize` (`none` = imread returned `None`, the
`if img1 is None or img2 is None: return False` guard).  Otherwise the
result is the decision `score > 0.8` with the `HISTCMP_CORREL` score. -/
noncomputable def compare_images (load : String → Option Gray)
    (p1 p2 : Option String) : Except PyErr Prop :=
  match p1, p2 with
  | none, _ => Except.error PyErr.typeError
  | some _, none => Except.error PyErr.typeError
  | some s1, some s2 =>
      match load s1, load s2 with
      | some i1, some i2 => Except.ok (correl (hist i1) (hist i2) > 0.8)
      | _, _ => Except.ok False

/-- A `compare_images` call that returned normally with a true decision. -/
def accepts (r : Except PyErr Prop) : Prop :=
  ∃ P, r = Except.ok P ∧ P

/-- The verification of line 183 of `app.py` on four decodable samples:
`compare_images(new_face, registered_face) and compare_images(new_eye,
registered_eye)` — the conjunction of the two modality comparisons. -/
def verification_passes (load : String → Option Gray)
    (new_face registered_face new_eye registered_eye : Option String) : Prop :=
  accepts (compare_images load new_face registered_face) ∧
    accepts (compare_images load new_eye registered_eye)

open Classical in
/-- The `/vote` POST handler (lines 164–189 of `app.py`) as one sequential
function: the `has_already_voted` short-circuit, the two captures (pure
`String → Option String` oracles: the file path written, or `None` when no
sample was detected), the `get_user` load, the short-circuiting Python
`and` of the two `compare_images` calls (each may raise), and on success
`save_vote` followed by `mark_voted`.  `Except.error` is an exception
escaping the handler. -/
noncomputable def vote (load : String → Option Gray)
    (capture_face capture_eye : String → Option String)
    (uid candidate : String) (db : DB) : Except PyErr (VoteResult × DB) :=
  if has_already_voted uid db then
    Except.ok (VoteResult.alreadyVoted, db)
  else
    let new_face := capture_face uid
    let new_eye := capture_eye uid
    match get_user uid db with
    | none => Except.ok (VoteResult.notFound, db)
    | some u =>
        match compare_images load new_face u.face_path with
        | Except.error e => Except.error e
        | Except.ok P1 =>
            if P1 then
              match compare_images load new_eye u.eye_path with
              | Except.error e => Except.error e
              | Except.ok P2 =>
                  if P2 then
                    Except.ok (VoteResult.committed,
                      mark_voted uid (save_vote uid candidate db))
                  else
                    Except.ok (VoteResult.rejected, db)
            else
              Except.ok (VoteResult.rejected, db)

/-- Histogram with 160 bins of height 157 and 96 bins of height 155
(so 160·157 + 96·155 = 40000 pixels). -/
def histA : Fin 256 → Nat := fun v => if v.val < 160 then 157 else 155

/-- Histogram with bins of heights 163 / 157 / 155 / 149 on the intensity
ranges [0,60) / [60,160) / [160,196) / [196,256)
(60·163 + 100·157 + 36·155 + 60·149 = 40000 pixels).  Its Pearson
correlation with `histA` is exactly 4/5. -/
def histB : Fin 256 → Nat := fun v =>
  if v.val < 60 then 163
  else if v.val < 160 then 157
  else if v.val < 196 then 155
  else 149

/-- A concrete 200×200 image realizing `histA`: pixels listed intensity by
intensity, 157 pixels of each intensity in [0,160) followed by 155 pixels
of each intensity in [160,256). -/
def imgA : Gray := fun n =>
  if h : n.val < 25120 then
    ⟨n.val / 157, by omega⟩
  else
    ⟨160 + (n.val - 25120) / 155, by have hn := n.isLt; omega⟩

/-- A concrete 200×200 image realizing `histB`. -/
def imgB : Gray := fun n =>
  if h1 : n.val < 9780 then
    ⟨n.val / 163, by omega⟩
  else if h2 : n.val < 25480 then
    ⟨60 + (n.val - 9780) / 157, by omega⟩
  else if h3 : n.val < 31060 then
    ⟨160 + (n.val - 25480) / 155, by omega⟩
  else
    ⟨196 + (n.val - 31060) / 149, by have hn := n.isLt; omega⟩

/-- A decode oracle mapping the path `"a"` to `imgA` and `"b"` to `imgB`. -/
def loadAB : String → Option Gray := fun s =>
  if s = "a" then some imgA else if s = "b" then some imgB else none

/-- An image that is black except for one white-ish pixel at index 0. -/
def wImgX : Gray := fun n => if n = (0 : Fin 40000) then 1 else 0

/-- The same image with pixels 0 and 1 swapped: a distinct, spatially
rearranged image with the identical intensity histogram. -/
def wImgY : Gray := fun n => wImgX (Equiv.swap (0 : Fin 40000) 1 n)

/-- A decode oracle mapping `"x"` to `wImgX` and `"y"` to `wImgY`. -/
def loadW : String → Option Gray := fun s =>
  if s = "x" then some wImgX else if s = "y" then some wImgY else none


/-- Every 200×200 image has histogram mass exactly 40000: the bins partition
the pixels. -/
lemma hist_sum (x : Gray) : ∑ v, hist x v = 40000 := by
  have h := Finset.card_eq_sum_card_fiberwise
    (f := x) (s := Finset.univ) (t := Finset.univ) (fun a _ => Finset.mem_univ _)
  rw [Finset.card_univ, Fintype.card_fin] at h
  simp only [hist]
  exact h.symm

/-- A sum over `Fin 256` whose summand only depends on the underlying
natural number is a range sum of that function. -/
lemma sum_fin256_piecewise (f : Fin 256 → ℚ) (g : ℕ → ℚ)
    (hfg : ∀ v : Fin 256, f v = g v.val) :
    ∑ v : Fin 256, f v = ∑ m ∈ Finset.range 256, g m := by
  rw [← Fin.sum_univ_eq_sum_range g 256]
  exact Finset.sum_congr rfl (fun v _ => hfg v)

/-- A sum over `Ico a b` of a function constant on that interval. -/
lemma sum_Ico_const (g : ℕ → ℚ) (a b : ℕ) (c : ℚ)
    (h : ∀ m, a ≤ m → m < b → g m = c) :
    ∑ m ∈ Finset.Ico a b, g m = ((b - a : ℕ) : ℚ) * c := by
  calc ∑ m ∈ Finset.Ico a b, g m
      = ∑ _m ∈ Finset.Ico a b, c :=
        Finset.sum_congr rfl (fun m hm => by
          rw [Finset.mem_Ico] at hm; exact h m hm.1 hm.2)
    _ = (Finset.Ico a b).card • c := Finset.sum_const c
    _ = ((b - a : ℕ) : ℚ) * c := by rw [Nat.card_Ico, nsmul_eq_mul]

/-- Splitting a range-256 sum at the breakpoints 60, 160, 196 of the
witness histograms. -/
lemma sum_range256_split (g : ℕ → ℚ) :
    ∑ m ∈ Finset.range 256, g m =
      (∑ m ∈ Finset.Ico 0 60, g m) + (∑ m ∈ Finset.Ico 60 160, g m) +
        (∑ m ∈ Finset.Ico 160 196, g m) + (∑ m ∈ Finset.Ico 196 256, g m) := by
  have h1 : (∑ m ∈ Finset.Ico 0 60, g m) + ∑ m ∈ Finset.Ico 60 256, g m
      = ∑ m ∈ Finset.Ico 0 256, g m :=
    Finset.sum_Ico_consecutive g (by norm_num) (by norm_num)
  have h2 : (∑ m ∈ Finset.Ico 60 160, g m) + ∑ m ∈ Finset.Ico 160 256, g m
      = ∑ m ∈ Finset.Ico 60 256, g m :=
    Finset.sum_Ico_consecutive g (by norm_num) (by norm_num)
  have h3 : (∑ m ∈ Finset.Ico 160 196, g m) + ∑ m ∈ Finset.Ico 196 256, g m
      = ∑ m ∈ Finset.Ico 160 256, g m :=
    Finset.sum_Ico_consecutive g (by norm_num) (by norm_num)
  rw [Finset.range_eq_Ico, ← h1, ← h2, ← h3]
  ring

/-- Total mass of `histA`, cast to the rationals. -/
lemma sum_histA_cast : ∑ v : Fin 256, (histA v : ℚ) = 40000 := by
  have hc : ∀ v : Fin 256, (histA v : ℚ)
      = (fun m : ℕ => if m < 160 then (157 : ℚ) else 155) v.val := by
    intro v
    by_cases hv : v.val < 160 <;> simp [histA, hv]
  rw [sum_fin256_piecewise _ (fun m : ℕ => if m < 160 then (157 : ℚ) else 155)
        hc, sum_range256_split,
      sum_Ico_const _ 0 60 157 (fun m h1 h2 => by
        simp only [if_pos (show m < 160 by omega)]),
      sum_Ico_const _ 60 160 157 (fun m h1 h2 => by
        simp only [if_pos (show m < 160 by omega)]),
      sum_Ico_const _ 160 196 155 (fun m h1 h2 => by
        simp only [if_neg (show ¬ m < 160 by omega)]),
      sum_Ico_const _ 196 256 155 (fun m h1 h2 => by
        simp only [if_neg (show ¬ m < 160 by omega)])]
  norm_num

/-- Total mass of `histB`, cast to the rationals. -/
lemma sum_histB_cast : ∑ v : Fin 256, (histB v : ℚ) = 40000 := by
  have hc : ∀ v : Fin 256, (histB v : ℚ)
      = (fun m : ℕ => if m < 60 then (163 : ℚ) else if m < 160 then 157
          else if m < 196 then 155 else 149) v.val := by
    intro v
    by_cases h1 : v.val < 60
    · simp [histB, h1]
    · by_cases h2 : v.val < 160
      · simp [histB, h1, h2]
      · by_cases h3 : v.val < 196 <;> simp [histB, h1, h2, h3]
  rw [sum_fin256_piecewise _ (fun m : ℕ => if m < 60 then (163 : ℚ)
        else if m < 160 then 157 else if m < 196 then 155 else 149) hc,
      sum_range256_split,
      sum_Ico_const _ 0 60 163 (fun m h1 h2 => by
        simp only [if_pos (show m < 60 by omega)]),
      sum_Ico_const _ 60 160 157 (fun m h1 h2 => by
        simp only [if_neg (show ¬ m < 60 by omega),
          if_pos (show m < 160 by omega)]),
      sum_Ico_const _ 160 196 155 (fun m h1 h2 => by
        simp only [if_neg (show ¬ m < 60 by omega),
          if_neg (show ¬ m < 160 by omega), if_pos (show m < 196 by omega)]),
      sum_Ico_const _ 196 256 149 (fun m h1 h2 => by
        simp only [if_neg (show ¬ m < 60 by omega),
          if_neg (show ¬ m < 160 by omega), if_neg (show ¬ m < 196 by omega)])]
  norm_num

/-- Mean bin height of `histA` (40000 pixels over 256 bins). -/
lemma histMeanA : histMean histA = 625 / 4 := by
  unfold histMean
  rw [sum_histA_cast]
  norm_num

/-- Mean bin height of `histB`. -/
lemma histMeanB : histMean histB = 625 / 4 := by
  unfold histMean
  rw [sum_histB_cast]
  norm_num

/-- Centered self-sum of `histA`: 160·(3/4)² + 96·(−5/4)² = 240. -/
lemma covSum_AA : covSum histA histA = 240 := by
  unfold covSum
  rw [histMeanA]
  have hc : ∀ v : Fin 256, ((histA v : ℚ) - 625 / 4) * ((histA v : ℚ) - 625 / 4)
      = (fun m : ℕ => ((if m < 160 then (157 : ℚ) else 155) - 625 / 4) *
          ((if m < 160 then (157 : ℚ) else 155) - 625 / 4)) v.val := by
    intro v
    by_cases hv : v.val < 160 <;> simp [histA, hv]
  rw [sum_fin256_piecewise _ (fun m : ℕ =>
        ((if m < 160 then (157 : ℚ) else 155) - 625 / 4) *
          ((if m < 160 then (157 : ℚ) else 155) - 625 / 4)) hc,
      sum_range256_split,
      sum_Ico_const _ 0 60 (9 / 16) (fun m h1 h2 => by
        simp only [if_pos (show m < 160 by omega)]; norm_num),
      sum_Ico_const _ 60 160 (9 / 16) (fun m h1 h2 => by
        simp only [if_pos (show m < 160 by omega)]; norm_num),
      sum_Ico_const _ 160 196 (25 / 16) (fun m h1 h2 => by
        simp only [if_neg (show ¬ m < 160 by omega)]; norm_num),
      sum_Ico_const _ 196 256 (25 / 16) (fun m h1 h2 => by
        simp only [if_neg (show ¬ m < 160 by omega)]; norm_num)]
  norm_num

/-- Centered self-sum of `histB`:
60·(27/4)² + 100·(3/4)² + 36·(−5/4)² + 60·(−29/4)² = 6000. -/
lemma covSum_BB : covSum histB histB = 6000 := by
  unfold covSum
  rw [histMeanB]
  have hc : ∀ v : Fin 256, ((histB v : ℚ) - 625 / 4) * ((histB v : ℚ) - 625 / 4)
      = (fun m : ℕ => ((if m < 60 then (163 : ℚ) else if m < 160 then 157
            else if m < 196 then 155 else 149) - 625 / 4) *
          ((if m < 60 then (163 : ℚ) else if m < 160 then 157
            else if m < 196 then 155 else 149) - 625 / 4)) v.val := by
    intro v
    by_cases h1 : v.val < 60
    · simp [histB, h1]
    · by_cases h2 : v.val < 160
      · simp [histB, h1, h2]
      · by_cases h3 : v.val < 196 <;> simp [histB, h1, h2, h3]
  rw [sum_fin256_piecewise _ (fun m : ℕ =>
        ((if m < 60 then (163 : ℚ) else if m < 160 then 157
            else if m < 196 then 155 else 149) - 625 / 4) *
          ((if m < 60 then (163 : ℚ) else if m < 160 then 157
            else if m < 196 then 155 else 149) - 625 / 4)) hc,
      sum_range256_split,
      sum_Ico_const _ 0 60 (729 / 16) (fun m h1 h2 => by
        simp only [if_pos (show m < 60 by omega)]; norm_num),
      sum_Ico_const _ 60 160 (9 / 16) (fun m h1 h2 => by
        simp only [if_neg (show ¬ m < 60 by omega),
          if_pos (show m < 160 by omega)]; norm_num),
      sum_Ico_const _ 160 196 (25 / 16) (fun m h1 h2 => by
        simp only [if_neg (show ¬ m < 60 by omega),
          if_neg (show ¬ m < 160 by omega),
          if_pos (show m < 196 by omega)]; norm_num),
      sum_Ico_const _ 196 256 (841 / 16) (fun m h1 h2 => by
        simp only [if_neg (show ¬ m < 60 by omega),
          if_neg (show ¬ m < 160 by omega),
          if_neg (show ¬ m < 196 by omega)]; norm_num)]
  norm_num

/-- Centered cross-sum of `histA` and `histB`:
60·(3/4)(27/4) + 100·(3/4)² + 36·(−5/4)² + 60·(−5/4)(−29/4) = 960. -/
lemma covSum_AB : covSum histA histB = 960 := by
  unfold covSum
  rw [histMeanA, histMeanB]
  have hc : ∀ v : Fin 256, ((histA v : ℚ) - 625 / 4) * ((histB v : ℚ) - 625 / 4)
      = (fun m : ℕ => ((if m < 160 then (157 : ℚ) else 155) - 625 / 4) *
          ((if m < 60 then (163 : ℚ) else if m < 160 then 157
            else if m < 196 then 155 else 149) - 625 / 4)) v.val := by
    intro v
    by_cases h1 : v.val < 60
    · simp [histA, histB, h1, show v.val < 160 by omega]
    · by_cases h2 : v.val < 160
      · simp [histA, histB, h1, h2]
      · by_cases h3 : v.val < 196 <;> simp [histA, histB, h1, h2, h3]
  rw [sum_fin256_piecewise _ (fun m : ℕ =>
        ((if m < 160 then (157 : ℚ) else 155) - 625 / 4) *
          ((if m < 60 then (163 : ℚ) else if m < 160 then 157
            else if m < 196 then 155 else 149) - 625 / 4)) hc,
      sum_range256_split,
      sum_Ico_const _ 0 60 (81 / 16) (fun m h1 h2 => by
        simp only [if_pos (show m < 160 by omega),
          if_pos (show m < 60 by omega)]; norm_num),
      sum_Ico_const _ 60 160 (9 / 16) (fun m h1 h2 => by
        simp only [if_pos (show m < 160 by omega),
          if_neg (show ¬ m < 60 by omega)]; norm_num),
      sum_Ico_const _ 160 196 (25 / 16) (fun m h1 h2 => by
        simp only [if_neg (show ¬ m < 160 by omega),
          if_neg (show ¬ m < 60 by omega),
          if_pos (show m < 196 by omega)]; norm_num),
      sum_Ico_const _ 196 256 (145 / 16) (fun m h1 h2 => by
        simp only [if_neg (show ¬ m < 160 by omega),
          if_neg (show ¬ m < 60 by omega),
          if_neg (show ¬ m < 196 by omega)]; norm_num)]
  norm_num

/-- The `HISTCMP_CORREL` score of the two witness histograms is exactly 0.8:
960 / √(240·6000) = 960 / 1200. -/
lemma correl_AB : correl histA histB = 0.8 := by
  unfold correl
  rw [covSum_AB, covSum_AA, covSum_BB]
  have h12 : ((240 : ℚ) : ℝ) * ((6000 : ℚ) : ℝ) = 1200 ^ 2 := by norm_num
  rw [h12, Real.sqrt_sq (by norm_num : (0 : ℝ) ≤ 1200)]
  norm_num

/-- A centered self-sum is a sum of squares, hence nonnegative. -/
lemma covSum_self_nonneg (h : Fin 256 → Nat) : 0 ≤ covSum h h :=
  Finset.sum_nonneg (fun _v _ => mul_self_nonneg _)

/-- The centered self-sum of a histogram with total mass 40000 is nonzero:
if it vanished, every bin would equal the mean 40000/256 = 156.25, which is
not an integer. -/
lemma covSum_self_ne_zero (h : Fin 256 → Nat) (hsum : ∑ v, h v = 40000) :
    covSum h h ≠ 0 := by
  intro h0
  have hterm := (Finset.sum_eq_zero_iff_of_nonneg
    (fun v _ => mul_self_nonneg ((h v : ℚ) - histMean h))).mp h0
  have hval : ∀ v : Fin 256, (h v : ℚ) = histMean h := by
    intro v
    have hz := mul_self_eq_zero.mp (hterm v (Finset.mem_univ v))
    linarith
  have hcast : ∑ v : Fin 256, (h v : ℚ) = 40000 := by
    rw [← Nat.cast_sum, hsum]
    norm_num
  have h256 : (40000 : ℚ) = 256 * histMean h := by
    rw [← hcast, Finset.sum_congr rfl (fun v _ => hval v), Finset.sum_const,
        Finset.card_univ, Fintype.card_fin, nsmul_eq_mul]
    norm_num
  have hm : histMean h = 625 / 4 := by linarith
  have h4 : ((4 * h 0 : ℕ) : ℚ) = 625 := by
    push_cast
    rw [hval 0, hm]
    ring
  have h5 : (4 * h 0 : ℕ) = 625 := by exact_mod_cast h4
  omega

/-- Two equal histograms of total mass 40000 have correlation exactly 1. -/
lemma correl_self_eq_one (h : Fin 256 → Nat) (hsum : ∑ v, h v = 40000) :
    correl h h = 1 := by
  unfold correl
  have hpos : 0 < covSum h h :=
    lt_of_le_of_ne (covSum_self_nonneg h) (Ne.symm (covSum_self_ne_zero h hsum))
  have hposR : (0 : ℝ) < ((covSum h h : ℚ) : ℝ) := by exact_mod_cast hpos
  rw [Real.sqrt_mul_self hposR.le]
  exact div_self (ne_of_gt hposR)

/-- Permuting the pixels of an image leaves its histogram unchanged. -/
lemma hist_comp_equiv (x : Gray) (e : Equiv.Perm (Fin 40000)) :
    hist (fun n => x (e n)) = hist x := by
  funext v
  simp only [hist]
  exact Finset.card_equiv e (fun n => by simp)

/-- The number of pixel indices whose value lies in `[a, b)`. -/
lemma card_filter_Ico (p : Fin 40000 → Prop) [DecidablePred p] (a b : ℕ)
    (hb : b ≤ 40000) (hp : ∀ n : Fin 40000, p n ↔ (a ≤ n.val ∧ n.val < b)) :
    (Finset.univ.filter p).card = b - a := by
  rw [Finset.filter_congr (fun n _ => by rw [hp n] :
      ∀ n ∈ Finset.univ, p n ↔ (a ≤ n.val ∧ n.val < b))]
  have hcard : (Finset.univ.filter
      (fun n : Fin 40000 => a ≤ n.val ∧ n.val < b)).card
      = (Finset.Ico a b).card := by
    apply Finset.card_nbij' (i := fun n => n.val)
      (j := fun m => (⟨m % 40000, Nat.mod_lt m (by norm_num)⟩ : Fin 40000))
    · intro n hn
      simp only [Finset.mem_filter, Finset.mem_univ, true_and] at hn
      exact Finset.mem_Ico.mpr hn
    · intro m hm
      rw [Finset.mem_Ico] at hm
      simp only [Finset.mem_filter, Finset.mem_univ, true_and]
      constructor
      · calc a ≤ m := hm.1
          _ = m % 40000 := (Nat.mod_eq_of_lt (by omega)).symm
      · calc m % 40000 = m := Nat.mod_eq_of_lt (by omega)
          _ < b := hm.2
    · intro n hn
      simp only [Finset.mem_filter, Finset.mem_univ, true_and] at hn
      apply Fin.ext
      simp only [Fin.val_mk]
      exact Nat.mod_eq_of_lt n.isLt
    · intro m hm
      rw [Finset.mem_Ico] at hm
      simp only [Fin.val_mk]
      exact Nat.mod_eq_of_lt (by omega)
  rw [hcard, Nat.card_Ico]

/-- The staircase image `imgA` realizes `histA`. -/
lemma hist_imgA : hist imgA = histA := by
  funext v
  have hvlt := v.isLt
  by_cases hv : v.val < 160
  · have hcard := card_filter_Ico (fun n => imgA n = v) (157 * v.val)
      (157 * v.val + 157) (by omega) (fun n => by
        by_cases hn : n.val < 25120
        · simp only [imgA, dif_pos hn, Fin.ext_iff]
          omega
        · simp only [imgA, dif_neg hn, Fin.ext_iff]
          omega)
    simp only [hist, hcard, histA, if_pos hv]
    omega
  · have hcard := card_filter_Ico (fun n => imgA n = v)
      (25120 + 155 * (v.val - 160)) (25120 + 155 * (v.val - 160) + 155)
      (by omega) (fun n => by
        by_cases hn : n.val < 25120
        · simp only [imgA, dif_pos hn, Fin.ext_iff]
          omega
        · simp only [imgA, dif_neg hn, Fin.ext_iff]
          omega)
    simp only [hist, hcard, histA, if_neg hv]
    omega

/-- The staircase image `imgB` realizes `histB`. -/
lemma hist_imgB : hist imgB = histB := by
  funext v
  have hvlt := v.isLt
  by_cases hv1 : v.val < 60
  · have hcard := card_filter_Ico (fun n => imgB n = v) (163 * v.val)
      (163 * v.val + 163) (by omega) (fun n => by
        by_cases hn1 : n.val < 9780
        · simp only [imgB, dif_pos hn1, Fin.ext_iff]
          omega
        · by_cases hn2 : n.val < 25480
          · simp only [imgB, dif_neg hn1, dif_pos hn2, Fin.ext_iff]
            omega
          · by_cases hn3 : n.val < 31060
            · simp only [imgB, dif_neg hn1, dif_neg hn2, dif_pos hn3,
                Fin.ext_iff]
              omega
            · simp only [imgB, dif_neg hn1, dif_neg hn2, dif_neg hn3,
                Fin.ext_iff]
              omega)
    simp only [hist, hcard, histB, if_pos hv1]
    omega
  · by_cases hv2 : v.val < 160
    · have hcard := card_filter_Ico (fun n => imgB n = v)
        (9780 + 157 * (v.val - 60)) (9780 + 157 * (v.val - 60) + 157)
        (by omega) (fun n => by
          by_cases hn1 : n.val < 9780
          · simp only [imgB, dif_pos hn1, Fin.ext_iff]
            omega
          · by_cases hn2 : n.val < 25480
            · simp only [imgB, dif_neg hn1, dif_pos hn2, Fin.ext_iff]
              omega
            · by_cases hn3 : n.val < 31060
              · simp only [imgB, dif_neg hn1, dif_neg hn2, dif_pos hn3,
                  Fin.ext_iff]
                omega
              · simp only [imgB, dif_neg hn1, dif_neg hn2, dif_neg hn3,
                  Fin.ext_iff]
                omega)
      simp only [hist, hcard, histB, if_neg hv1, if_pos hv2]
      omega
    · by_cases hv3 : v.val < 196
      · have hcard := card_filter_Ico (fun n => imgB n = v)
          (25480 + 155 * (v.val - 160)) (25480 + 155 * (v.val - 160) + 155)
          (by omega) (fun n => by
            by_cases hn1 : n.val < 9780
            · simp only [imgB, dif_pos hn1, Fin.ext_iff]
              omega
            · by_cases hn2 : n.val < 25480
              · simp only [imgB, dif_neg hn1, dif_pos hn2, Fin.ext_iff]
                omega
              · by_cases hn3 : n.val < 31060
                · simp only [imgB, dif_neg hn1, dif_neg hn2, dif_pos hn3,
                    Fin.ext_iff]
                  omega
                · simp only [imgB, dif_neg hn1, dif_neg hn2, dif_neg hn3,
                    Fin.ext_iff]
                  omega)
        simp only [hist, hcard, histB, if_neg hv1, if_neg hv2, if_pos hv3]
        omega
      · have hcard := card_filter_Ico (fun n => imgB n = v)
          (31060 + 149 * (v.val - 196)) (31060 + 149 * (v.val - 196) + 149)
          (by omega) (fun n => by
            by_cases hn1 : n.val < 9780
            · simp only [imgB, dif_pos hn1, Fin.ext_iff]
              omega
            · by_cases hn2 : n.val < 25480
              · simp only [imgB, dif_neg hn1, dif_pos hn2, Fin.ext_iff]
                omega
              · by_cases hn3 : n.val < 31060
                · simp only [imgB, dif_neg hn1, dif_neg hn2, dif_pos hn3,
                    Fin.ext_iff]
                  omega
                · simp only [imgB, dif_neg hn1, dif_neg hn2, dif_neg hn3,
                    Fin.ext_iff]
                  omega)
        simp only [hist, hcard, histB, if_neg hv1, if_neg hv2, if_neg hv3]
        omega

/-- The `HISTCMP_CORREL` score of the two concrete witness images. -/
lemma correl_imgs : correl (hist imgA) (hist imgB) = 0.8 := by
  rw [hist_imgA, hist_imgB]
  exact correl_AB

/-- C1: counterexample execution for the no-double-voting property.  Under
the interleaving `raceSchedule`, two concurrent `/vote` requests for the
same enrolled voter `"v1"`, both with verifying samples, BOTH terminate
committed ("Vote registered successfully!") and two ballots for `"v1"` are
recorded — not exactly one Committed with the other attempt turned away.
The `has_already_voted` read and the `mark_voted` write are separate
unsynchronized statements with the whole capture/verification pipeline
between them, so both requests pass the check before either writes. -/
theorem race_two_commits :
    (run2 raceSchedule
        (mkAttempt "v1" "A" true, mkAttempt "v1" "B" true, db1)).1.pc
      = PC.done VoteResult.committed ∧
    (run2 raceSchedule
        (mkAttempt "v1" "A" true, mkAttempt "v1" "B" true, db1)).2.1.pc
      = PC.done VoteResult.committed ∧
    ballotsFor "v1"
        (run2 raceSchedule
          (mkAttempt "v1" "A" true, mkAttempt "v1" "B" true, db1)).2.2
      = [⟨"v1", "A"⟩, ⟨"v1", "B"⟩] :=
  ⟨rfl, rfl, rfl⟩

/-- C2: the code's only status write, `mark_voted`, is not a compare-and-set
and returns no outcome.  Called for an unknown voter it silently updates
zero rows (no `NotFound`); called for a voter who has already voted it
silently re-writes `has_voted = 1` (no `AlreadyVoted`); and the
already-voted test is a separate read (`has_already_voted`) whose value the
write does not consult — the check and the write are two operations, not
one atomic transition. -/
theorem mark_voted_no_cas :
    mark_voted "ghost" db1 = db1 ∧
    mark_voted "v1" dbVoted = dbVoted ∧
    has_already_voted "v1" db1 = false ∧
    has_already_voted "v1" (mark_voted "v1" db1) = true :=
  ⟨rfl, rfl, rfl, rfl⟩

/-- C3: after the `save_vote` statement of a single committing `/vote`
request (6 machine steps) and before its `mark_voted` statement, the
database observably contains a ballot for `"v1"` while `"v1"`'s status is
still eligible (`has_voted = 0`): the insert and the status flip are two
separately committed sqlite transactions, not one atomic unit. -/
theorem ballot_exists_while_eligible :
    (runSeq 6 (mkAttempt "v1" "A" true) db1).2.votes = [⟨"v1", "A"⟩] ∧
    statusOf "v1" (runSeq 6 (mkAttempt "v1" "A" true) db1).2 = some 0 :=
  ⟨rfl, rfl⟩

/-- C5: `save_vote` inserts unconditionally — the `votes` table has no
uniqueness constraint on `voter_id` and the function performs no duplicate
check and has no `DuplicateVote` result, so calling it twice for the same
voter records two ballots. -/
theorem save_vote_allows_duplicates :
    ballotsFor "v1" (save_vote "v1" "A" (save_vote "v1" "A" db1))
      = [⟨"v1", "A"⟩, ⟨"v1", "A"⟩] :=
  rfl

/-- C8 counterexample: it is not the case that a `/vote` request for an
unknown voter concludes `NotFound` having performed no captures ("at the
Start of the attempt"): the concrete run for `"ghost"` on the empty
database concludes `NotFound` only after performing both captures, because
the initial `has_already_voted` check treats an absent record as
not-having-voted and lets the request proceed. -/
theorem notFound_claim_start_false :
    ¬ (∀ n : ℕ, (runSeq n (mkAttempt "ghost" "A" true) create_db).1.pc
          = PC.done VoteResult.notFound →
        (runSeq n (mkAttempt "ghost" "A" true) create_db).1.caps = 0) := by
  intro hcl
  exact absurd (hcl 4 rfl) (by decide)

/-- C8 amended: a `/vote` request for a voter with no enrolled record
returns `NotFound` regardless of the samples (any `verok`) and leaves the
database unchanged, but the absence is detected only at the `get_user` load
after the two `capture_image` calls, not at the start of the attempt. -/
theorem notFound_after_two_captures (uid cand : String) (verok : Bool)
    (db : DB) (habsent : get_user uid db = none) :
    runSeq 4 (mkAttempt uid cand verok) db
      = ({ mkAttempt uid cand verok with
            pc := PC.done VoteResult.notFound, caps := 2 }, db) := by
  have hnv : has_already_voted uid db = false := by
    simp [has_already_voted, habsent]
  simp [runSeq, step, mkAttempt, hnv, habsent]

/-- C8 witness: the amended statement at the concrete unknown voter
`"ghost"` on the empty database. -/
theorem notFound_after_two_captures_witness :
    runSeq 4 (mkAttempt "ghost" "A" true) create_db
      = ({ mkAttempt "ghost" "A" true with
            pc := PC.done VoteResult.notFound, caps := 2 }, create_db) :=
  notFound_after_two_captures "ghost" "A" true create_db rfl

/-- C4 counterexample: the verifier does not accept "iff both scores are
at least 0.8".  At the concrete decodable samples `imgA`/`imgB` (face
score exactly 0.8, a realizable value) and `imgA`/`imgA` (eye score 1),
both scores are ≥ 0.8 yet the code rejects, because line 145 of `app.py`
tests `score > 0.8` strictly. -/
theorem verify_ge_iff_false :
    ¬ (∀ (load : String → Option Gray) (pf prf pe pre : String)
        (f rf e re : Gray), load pf = some f → load prf = some rf →
        load pe = some e → load pre = some re →
        (verification_passes load (some pf) (some prf) (some pe) (some pre) ↔
          (correl (hist f) (hist rf) ≥ 0.8 ∧
            correl (hist e) (hist re) ≥ 0.8))) := by
  intro hcl
  have h := hcl loadAB "a" "b" "a" "a" imgA imgB imgA imgA rfl rfl rfl rfl
  have hAA : correl (hist imgA) (hist imgA) = 1 :=
    correl_self_eq_one _ (hist_sum imgA)
  have hrhs : correl (hist imgA) (hist imgB) ≥ 0.8 ∧
      correl (hist imgA) (hist imgA) ≥ 0.8 := by
    rw [correl_imgs, hAA]
    norm_num
  obtain ⟨⟨P, hP, hPtrue⟩, _⟩ := h.mpr hrhs
  have hc : compare_images loadAB (some "a") (some "b")
      = Except.ok (correl (hist imgA) (hist imgB) > 0.8) := rfl
  have hQP := Except.ok.inj (hc.symm.trans hP)
  rw [← hQP, correl_imgs] at hPtrue
  norm_num at hPtrue

/-- C4 amended: on decodable samples the verifier accepts iff BOTH the face
score and the eye score are STRICTLY greater than the single hard-coded
threshold 0.8 (conjunctive, no averaging); in particular a below-or-at
threshold eye score alone forces rejection however high the face score. -/
theorem verify_iff_strict (load : String → Option Gray)
    (pf prf pe pre : String) (f rf e re : Gray)
    (hf : load pf = some f) (hrf : load prf = some rf)
    (he : load pe = some e) (hre : load pre = some re) :
    (verification_passes load (some pf) (some prf) (some pe) (some pre) ↔
      (correl (hist f) (hist rf) > 0.8 ∧ correl (hist e) (hist re) > 0.8)) ∧
    (correl (hist e) (hist re) ≤ 0.8 →
      ¬ verification_passes load (some pf) (some prf) (some pe) (some pre)) := by
  have c1 : compare_images load (some pf) (some prf)
      = Except.ok (correl (hist f) (hist rf) > 0.8) := by
    simp [compare_images, hf, hrf]
  have c2 : compare_images load (some pe) (some pre)
      = Except.ok (correl (hist e) (hist re) > 0.8) := by
    simp [compare_images, he, hre]
  constructor
  · constructor
    · rintro ⟨⟨P1, hP1, h1⟩, ⟨P2, hP2, h2⟩⟩
      constructor
      · rw [← Except.ok.inj (c1.symm.trans hP1)] at h1
        exact h1
      · rw [← Except.ok.inj (c2.symm.trans hP2)] at h2
        exact h2
    · rintro ⟨h1, h2⟩
      exact ⟨⟨_, c1, h1⟩, ⟨_, c2, h2⟩⟩
  · intro hle hv
    obtain ⟨_, ⟨P2, hP2, h2⟩⟩ := hv
    rw [← Except.ok.inj (c2.symm.trans hP2)] at h2
    linarith

/-- C4 witness: at the concrete images with eye score exactly 0.8 the
verifier rejects. -/
theorem verify_iff_strict_witness :
    ¬ verification_passes loadAB (some "a") (some "a")
        (some "a") (some "b") :=
  (verify_iff_strict loadAB "a" "a" "a" "b" imgA imgA imgA imgB
      rfl rfl rfl rfl).2 (le_of_eq correl_imgs)

/-- C6: a `/vote` request that returns normally with any outcome other than
committed ("Vote registered successfully!") leaves the database exactly as
it was: the voter's stored status is unchanged and the voter's set of
ballots is unchanged — no state mutation on the already-voted, not-found
and verification-failed paths. -/
theorem vote_no_mutation (load : String → Option Gray)
    (capture_face capture_eye : String → Option String) (uid cand : String)
    (db : DB) (r : VoteResult) (db' : DB)
    (hrun : vote load capture_face capture_eye uid cand db
      = Except.ok (r, db'))
    (hnc : r ≠ VoteResult.committed) :
    db' = db ∧ statusOf uid db' = statusOf uid db ∧
      ballotsFor uid db' = ballotsFor uid db := by
  have hdb : db' = db := by
    simp only [vote] at hrun
    split at hrun
    · simp only [Except.ok.injEq, Prod.mk.injEq] at hrun
      exact hrun.2.symm
    · split at hrun
      · simp only [Except.ok.injEq, Prod.mk.injEq] at hrun
        exact hrun.2.symm
      · split at hrun
        · exact absurd hrun (by simp)
        · split at hrun
          · split at hrun
            · exact absurd hrun (by simp)
            · split at hrun
              · simp only [Except.ok.injEq, Prod.mk.injEq] at hrun
                exact absurd hrun.1.symm hnc
              · simp only [Except.ok.injEq, Prod.mk.injEq] at hrun
                exact hrun.2.symm
          · simp only [Except.ok.injEq, Prod.mk.injEq] at hrun
            exact hrun.2.symm
  subst hdb
  exact ⟨rfl, rfl, rfl⟩

/-- C6 witness: the concrete not-found request on the empty database leaves
it unchanged. -/
theorem vote_no_mutation_witness :
    create_db = create_db ∧
      statusOf "ghost" create_db = statusOf "ghost" create_db ∧
      ballotsFor "ghost" create_db = ballotsFor "ghost" create_db :=
  vote_no_mutation (fun _ => some imgA) (fun _ => some "f") (fun _ => some "e")
    "ghost" "A" create_db VoteResult.notFound create_db rfl (by decide)

/-- The `sqlite3.IntegrityError` branch of `add_user`: with a matching row
present, the insert fails and the state is untouched. -/
lemma add_user_existing (uid : String) (f e : Option String) (db : DB)
    (h : db.users.any (fun r => r.user_id == uid) = true) :
    add_user uid f e db = (false, db) := by
  unfold add_user
  rw [h]
  rfl

/-- The successful branch of `add_user`: with no matching row, the new row
is appended with `has_voted = 0`. -/
lemma add_user_fresh (uid : String) (f e : Option String) (db : DB)
    (h : db.users.any (fun r => r.user_id == uid) = false) :
    add_user uid f e db
      = (true, { db with users := db.users ++ [⟨uid, f, e, 0⟩] }) := by
  unfold add_user
  rw [h]
  rfl

/-- C7: enrollment is create-only.  For a voter id with no existing row, the
first `add_user` returns `True` and creates the record with `has_voted = 0`
(eligible); any second `add_user` for the same id hits the `UNIQUE`
constraint (`sqlite3.IntegrityError`), returns `False`, and leaves the
users table — in particular the first record's stored template paths —
completely unchanged. -/
theorem enroll_create_only (uid : String) (f e f2 e2 : Option String)
    (db : DB) (habsent : get_user uid db = none) :
    (add_user uid f e db).1 = true ∧
    get_user uid (add_user uid f e db).2 = some ⟨uid, f, e, 0⟩ ∧
    (add_user uid f2 e2 (add_user uid f e db).2).1 = false ∧
    (add_user uid f2 e2 (add_user uid f e db).2).2
      = (add_user uid f e db).2 := by
  have hnone : db.users.find? (fun r => r.user_id == uid) = none := habsent
  have hnotany : db.users.any (fun r => r.user_id == uid) = false :=
    List.any_eq_false.mpr (fun r hr => by
      simpa using List.find?_eq_none.mp hnone r hr)
  have hadd := add_user_fresh uid f e db hnotany
  have hadd2 : (add_user uid f e db).2
      = { db with users := db.users ++ [⟨uid, f, e, 0⟩] } := by
    rw [hadd]
  have hany2 : ({ db with users := db.users ++ [⟨uid, f, e, 0⟩] } : DB).users.any
      (fun r => r.user_id == uid) = true := by
    simp [List.any_append]
  refine ⟨by rw [hadd], ?_, ?_, ?_⟩
  · rw [hadd2]
    simp [get_user, List.find?_append, hnone]
  · rw [hadd2, add_user_existing uid f2 e2 _ hany2]
  · rw [hadd2, add_user_existing uid f2 e2 _ hany2]

/-- C7 witness: the concrete double enrollment of `"v1"` on the empty
database. -/
theorem enroll_create_only_witness :
    (add_user "v1" (some "fp") (some "ep") create_db).1 = true ∧
    get_user "v1" (add_user "v1" (some "fp") (some "ep") create_db).2
      = some ⟨"v1", some "fp", some "ep", 0⟩ ∧
    (add_user "v1" (some "fp2") (some "ep2")
        (add_user "v1" (some "fp") (some "ep") create_db).2).1 = false ∧
    (add_user "v1" (some "fp2") (some "ep2")
        (add_user "v1" (some "fp") (some "ep") create_db).2).2
      = (add_user "v1" (some "fp") (some "ep") create_db).2 :=
  enroll_create_only "v1" (some "fp") (some "ep") (some "fp2") (some "ep2")
    create_db rfl

/-- C9: when the capture service supplies no sample (`capture_image`
returns `None`) for an enrolled, not-yet-voted voter, the `/vote` request
does not conclude with the "Verification failed" rejection: the `None`
path reaches `cv2.imread`, which raises an uncaught `TypeError`, and the
request terminates with an unhandled exception. -/
theorem capture_none_raises :
    vote (fun _ => some imgA) (fun _ => none)
        (fun _ => some "voters/eyes/v1.jpg") "v1" "A" db1
      = Except.error PyErr.typeError :=
  rfl

/-- C10: the `compare_images` decision on decodable samples depends only on
the 200×200 intensity histograms: pairwise equal histograms give the very
same result, and comparing any image against one with an identical
histogram — e.g. any spatial rearrangement of its pixels — yields
correlation exactly 1 and is accepted. -/
theorem compare_hist_only :
    (∀ (load : String → Option Gray) (p1 p2 q1 q2 : String)
        (x1 x2 y1 y2 : Gray),
      load p1 = some x1 → load p2 = some x2 → load q1 = some y1 →
      load q2 = some y2 → hist x1 = hist y1 → hist x2 = hist y2 →
      compare_images load (some p1) (some p2)
        = compare_images load (some q1) (some q2)) ∧
    (∀ (load : String → Option Gray) (p1 p2 : String) (x1 x2 : Gray),
      load p1 = some x1 → load p2 = some x2 → hist x1 = hist x2 →
      correl (hist x1) (hist x2) = 1 ∧
        accepts (compare_images load (some p1) (some p2))) := by
  constructor
  · intro load p1 p2 q1 q2 x1 x2 y1 y2 h1 h2 h3 h4 he1 he2
    simp [compare_images, h1, h2, h3, h4, he1, he2]
  · intro load p1 p2 x1 x2 h1 h2 he
    have hone : correl (hist x1) (hist x2) = 1 := by
      rw [he]
      exact correl_self_eq_one _ (hist_sum x2)
    refine ⟨hone, ⟨correl (hist x1) (hist x2) > 0.8,
      by simp [compare_images, h1, h2], ?_⟩⟩
    rw [hone]
    norm_num

/-- C10 witness: `wImgY` is a distinct spatial rearrangement of `wImgX`
with the identical histogram; their correlation is 1 and the comparison
accepts. -/
theorem compare_hist_only_witness :
    wImgX ≠ wImgY ∧ correl (hist wImgX) (hist wImgY) = 1 ∧
      accepts (compare_images loadW (some "x") (some "y")) := by
  have hh : hist wImgX = hist wImgY :=
    (hist_comp_equiv wImgX (Equiv.swap 0 1)).symm
  refine ⟨?_, (compare_hist_only.2 loadW "x" "y" wImgX wImgY rfl rfl hh).1,
    (compare_hist_only.2 loadW "x" "y" wImgX wImgY rfl rfl hh).2⟩
  intro hxy
  exact absurd (congrFun hxy (0 : Fin 40000)) (by decide)
